import Mathlib

/-!
Verification of the `TerraformLatestRun` view component
(`src/plugins/terraform/src/components/TerraformLatestRun/TerraformLatestRun.tsx`)
of the `globallogicuki/backstage-plugins` repository, against its
natural-language specification.

The component is shallowly embedded: its render function becomes a pure
Lean function from props and fetch state to a `View` value, the
`useEffect` hook becomes an explicit effect specification scheduled over
a sequence of renders, and activations of the refresh control become an
explicit action trace.  Callbacks (the injected `refetch`) are modelled
by identity tokens (`Nat`), as React compares dependency entries by
reference identity.
-/

namespace Terraform

/-- A JavaScript `Error` value, observed only through its message
(`ResponseErrorPanel` renders "Error: {message}"). -/
structure JsError where
  message : String
deriving DecidableEq, Repr

/-- The `confirmedBy` field of a run.  The spec allows its `name` to be
absent ("defaulting to the literal Unknown when the confirming-user
field or its name is absent"), so `name` is optional here. -/
structure ConfirmedBy where
  name : Option String
deriving DecidableEq, Repr

/-- The `plan` field of a run. -/
structure RunPlan where
  logs : String
deriving DecidableEq, Repr

/-- A Terraform run record, from the spec data model (section 3):
`{ id, message, status, createdAt, confirmedBy?, plan? }`. -/
structure Run where
  id : String
  message : String
  status : String
  createdAt : String
  confirmedBy : Option ConfirmedBy
  plan : Option RunPlan
deriving DecidableEq, Repr

/-- The state returned by the `useRuns` hook:
`{ data?: Run[], error?: Error, isLoading: bool, refetch }`.
The `refetch` callback is represented by its reference identity
`refetchId`, since the component only stores it, passes it to
`useEffect`'s dependency array, and binds it to the refresh control. -/
structure FetchState where
  data : Option (List Run)
  error : Option JsError
  isLoading : Bool
  refetchId : Nat
deriving DecidableEq, Repr

/-- The props of `TerraformLatestRun`:
`{ organization, workspaceName, hideDescription? = false }`. -/
structure Props where
  organization : String
  workspaceName : String
  hideDescription : Bool
deriving DecidableEq, Repr

/-- Modelled from the spec: the source of `TerraformLatestRunCard` is not
part of this repository fragment; spec section 4.1 (step 4) describes the
sub-states it resolves.  Its rendered output is one of three shapes:
loading text, empty text, or the populated run details (with the resolved
confirming-user name). -/
inductive CardView where
  | gettingData : String → CardView
  | noRuns : String → CardView
  | latestRun : String → Run → String → CardView
deriving DecidableEq, Repr

/-- Modelled from the spec: the user-visible text of the card.  Loading
shows "Getting data for workspace {W}", empty shows "No runs for {W}",
populated shows "Latest run for {W}" plus message, status, creation time
and a "User" label with the resolved user name.  (Time formatting is an
external concern; the raw `createdAt` stands for the formatted time.) -/
def CardView.texts : CardView → List String
  | .gettingData w => ["Getting data for workspace " ++ w]
  | .noRuns w => ["No runs for " ++ w]
  | .latestRun w r u =>
      ["Latest run for " ++ w, r.message, r.status, r.createdAt, "User", u]

/-- Modelled from the spec: `TerraformLatestRunCard` (section 4.1, step 4).
If the parent signals loading, display the loading text; else if no run is
provided, display the empty text; else display the run details, the
confirming user's name defaulting to the literal "Unknown" when the
confirming-user field or its name is absent. -/
def TerraformLatestRunCard (isLoading : Bool) (run : Option Run)
    (workspace : String) : CardView :=
  if isLoading then
    .gettingData workspace
  else
    match run with
    | none => .noRuns workspace
    | some r =>
        .latestRun workspace r
          ((r.confirmedBy.bind ConfirmedBy.name).getD "Unknown")

/-- The header block of the non-`hideDescription` render path: a fixed
title, and an `IconButton` whose `aria-label` is "Refresh" and whose
`onClick` is the injected `refetch` callback (stored by identity). -/
structure Header where
  title : String
  refreshAriaLabel : String
  refreshOnClick : Nat
deriving DecidableEq, Repr

/-- The fixed descriptive sentence of the header, interpolated with the
workspace name (TerraformLatestRun.tsx lines 63-66). -/
def descriptionText (w : String) : String :=
  "This contains some useful information around the terraform workspace \""
    ++ w ++ "\"."

/-- The rendered output of `TerraformLatestRun`: the error panel, the bare
run-summary card (`hideDescription` path), or the full layout of header,
description and card. -/
inductive View where
  | errorPanel : JsError → View
  | cardOnly : CardView → View
  | full : Header → String → CardView → View
deriving DecidableEq, Repr

/-- Whether the rendered output contains the refresh control. -/
def View.hasRefreshControl : View → Bool
  | .full _ _ _ => true
  | _ => false

/-- The header title of the rendered output, when present. -/
def View.headerTitle : View → Option String
  | .full h _ _ => some h.title
  | _ => none

/-- The descriptive sentence of the rendered output, when present. -/
def View.description : View → Option String
  | .full _ d _ => some d
  | _ => none

/-- The run-summary card of the rendered output, when present. -/
def View.cardOf : View → Option CardView
  | .errorPanel _ => none
  | .cardOnly c => some c
  | .full _ _ c => some c

/-- The user-visible text of the rendered output.  The error panel shows
"Error: {message}" (as asserted by the test suite). -/
def View.texts : View → List String
  | .errorPanel e => ["Error: " ++ e.message]
  | .cardOnly c => c.texts
  | .full h d c => [h.title, d] ++ c.texts

/-- The JSX expression `data ? data[0] : undefined` (TerraformLatestRun.tsx
lines 34 and 70): an absent `data` yields no run; a present `data` yields
its element at index 0, which for the empty array is `undefined`. -/
def latestRunOf : Option (List Run) → Option Run
  | none => none
  | some l => l.head?

/-- The render function of `TerraformLatestRun` (lines 28-78): if `error`
is set, return the error panel; else if `hideDescription`, return only the
card; else return the full layout with title "Terraform", the refresh
control bound to `refetch`, the descriptive sentence, and the card. -/
def TerraformLatestRun (p : Props) (st : FetchState) : View :=
  match st.error with
  | some e => .errorPanel e
  | none =>
      if p.hideDescription then
        .cardOnly
          (TerraformLatestRunCard st.isLoading (latestRunOf st.data)
            p.workspaceName)
      else
        .full
          { title := "Terraform", refreshAriaLabel := "Refresh",
            refreshOnClick := st.refetchId }
          (descriptionText p.workspaceName)
          (TerraformLatestRunCard st.isLoading (latestRunOf st.data)
            p.workspaceName)

/-- An observable action performed against the injected accessor: one
invocation of the `refetch` callback with the given reference identity.
The view never consumes a return value from such an invocation. -/
inductive EffectAction where
  | callRefetch : Nat → EffectAction
deriving DecidableEq, Repr

/-- The effect registered by `useEffect(() => { refetch(); }, [refetch])`
(TerraformLatestRun.tsx lines 24-26): a body that invokes `refetch` exactly
once and a dependency array holding exactly the `refetch` reference. -/
structure EffectSpec where
  body : List EffectAction
  deps : List Nat
deriving DecidableEq, Repr

/-- A single evaluation of the component function: the registered effect
together with the returned view.  The hook call and effect registration
precede the conditional returns in the source, so the effect is the same
whichever view is returned. -/
structure RenderResult where
  effect : EffectSpec
  view : View
deriving DecidableEq, Repr

/-- One evaluation of `TerraformLatestRun`: register the mount/deps effect
(lines 24-26) and compute the view (lines 28-78). -/
def TerraformLatestRunComponent (p : Props) (st : FetchState) : RenderResult :=
  { effect := { body := [.callRefetch st.refetchId], deps := [st.refetchId] },
    view := TerraformLatestRun p st }

/-- React effect scheduling after the first commit: the effect of a render
runs exactly when its dependency array differs from the previous render's;
`prev` is the previous dependency array.  Returns the concatenated actions
of the effect bodies that ran. -/
def runEffectsFrom (prev : List Nat) : List EffectSpec → List EffectAction
  | [] => []
  | e :: rest => (if e.deps = prev then [] else e.body) ++ runEffectsFrom e.deps rest

/-- React effect scheduling over a whole sequence of committed renders:
the first render's effect always runs (mount), later renders' effects run
exactly when their dependency array changed. -/
def runEffects : List EffectSpec → List EffectAction
  | [] => []
  | e :: rest => e.body ++ runEffectsFrom e.deps rest

/-- The number of positions in a render sequence at which the `refetch`
reference differs from the previous render's; `prev` is the previous
reference identity. -/
def refIdChanges (prev : Nat) : List FetchState → Nat
  | [] => 0
  | st :: rest =>
      (if st.refetchId = prev then 0 else 1) + refIdChanges st.refetchId rest

/-- All `refetch` invocations performed by the component's effect over a
sequence of committed renders with the given per-render fetch states. -/
def effectTrace (p : Props) (sts : List FetchState) : List EffectAction :=
  runEffects (sts.map fun st => (TerraformLatestRunComponent p st).effect)

/-- One activation of the refresh control: it invokes the bound `onClick`
handler once, and that handler is the injected `refetch` callback itself
(TerraformLatestRun.tsx line 57), so one `callRefetch` action is emitted.
A view without the refresh control offers no activation. -/
def activateRefresh : View → List EffectAction
  | .full h _ _ => [.callRefetch h.refreshOnClick]
  | _ => []

/-- `n` successive activations of the refresh control on a rendered view:
the concatenation of the action traces of each activation. -/
def activateRefreshN (v : View) : Nat → List EffectAction
  | 0 => []
  | n + 1 => activateRefresh v ++ activateRefreshN v n

/-- The evaluation of the JSX index expression `data[0]` under JavaScript
semantics: indexing `undefined` raises a `TypeError`; indexing an array
out of range yields `undefined` without raising. -/
def jsIndexZero (a : Option (List Run)) : Except String (Option Run) :=
  match a with
  | none => .error "TypeError: Cannot read properties of undefined"
  | some l => .ok l.head?

/-- The guarded expression `data ? data[0] : undefined` under JavaScript
semantics: an absent `data` is falsy and short-circuits to `undefined`; a
present array (empty arrays are truthy) is indexed. -/
def latestRunExpr (d : Option (List Run)) : Except String (Option Run) :=
  match d with
  | none => .ok none
  | some l => jsIndexZero (some l)

/-- The render function of `TerraformLatestRun` instrumented with
JavaScript exception semantics: every sub-expression that could raise is
evaluated in an exception monad, so a `.error` result would mean the
render threw. -/
def TerraformLatestRunChecked (p : Props) (st : FetchState) :
    Except String View :=
  match st.error with
  | some e => .ok (.errorPanel e)
  | none =>
      match latestRunExpr st.data with
      | .error msg => .error msg
      | .ok run =>
          if p.hideDescription then
            .ok (.cardOnly
              (TerraformLatestRunCard st.isLoading run p.workspaceName))
          else
            .ok (.full
              { title := "Terraform", refreshAriaLabel := "Refresh",
                refreshOnClick := st.refetchId }
              (descriptionText p.workspaceName)
              (TerraformLatestRunCard st.isLoading run p.workspaceName))

/-- C1: for every `FetchState` in which `error` is set, regardless of
`data`, `isLoading` and the `hideDescription` prop, the rendered output of
`TerraformLatestRun` is the error display populated from the error value
and nothing else: the refresh control, the description text, the header
title, and the run-summary card are all omitted. -/
theorem error_state_renders_only_error_panel (p : Props) (st : FetchState)
    (e : JsError) (h : st.error = some e) :
    TerraformLatestRun p st = .errorPanel e ∧
    (TerraformLatestRun p st).hasRefreshControl = false ∧
    (TerraformLatestRun p st).description = none ∧
    (TerraformLatestRun p st).headerTitle = none ∧
    (TerraformLatestRun p st).cardOf = none := by
  simp [TerraformLatestRun, h, View.hasRefreshControl, View.description,
    View.headerTitle, View.cardOf]

/-- Witness for C1 at a concrete erroring state with populated data,
`isLoading` set, and `hideDescription` off. -/
theorem error_state_renders_only_error_panel_witness :
    TerraformLatestRun ⟨"gl", "ws1", false⟩
        ⟨some [], some ⟨"Some fake error."⟩, true, 0⟩ =
      .errorPanel ⟨"Some fake error."⟩ ∧
    (TerraformLatestRun ⟨"gl", "ws1", false⟩
        ⟨some [], some ⟨"Some fake error."⟩, true, 0⟩).hasRefreshControl
      = false ∧
    (TerraformLatestRun ⟨"gl", "ws1", false⟩
        ⟨some [], some ⟨"Some fake error."⟩, true, 0⟩).description = none ∧
    (TerraformLatestRun ⟨"gl", "ws1", false⟩
        ⟨some [], some ⟨"Some fake error."⟩, true, 0⟩).headerTitle = none ∧
    (TerraformLatestRun ⟨"gl", "ws1", false⟩
        ⟨some [], some ⟨"Some fake error."⟩, true, 0⟩).cardOf = none :=
  error_state_renders_only_error_panel ⟨"gl", "ws1", false⟩
    ⟨some [], some ⟨"Some fake error."⟩, true, 0⟩ ⟨"Some fake error."⟩ rfl

/-- C6: for every `FetchState` with `error` absent, when `hideDescription`
is true the rendered output of `TerraformLatestRun` consists solely of the
run-summary card: the header title, the refresh control, and the
description sentence are all omitted. -/
theorem hide_description_renders_card_only (p : Props) (st : FetchState)
    (herr : st.error = none) (hhide : p.hideDescription = true) :
    TerraformLatestRun p st =
      .cardOnly (TerraformLatestRunCard st.isLoading (latestRunOf st.data)
        p.workspaceName) ∧
    (TerraformLatestRun p st).headerTitle = none ∧
    (TerraformLatestRun p st).hasRefreshControl = false ∧
    (TerraformLatestRun p st).description = none := by
  simp [TerraformLatestRun, herr, hhide, View.headerTitle,
    View.hasRefreshControl, View.description]

/-- Witness for C6 at a concrete non-error state with `hideDescription`
enabled. -/
theorem hide_description_renders_card_only_witness :
    TerraformLatestRun ⟨"gl", "ws1", true⟩ ⟨none, none, false, 3⟩ =
      .cardOnly (TerraformLatestRunCard false (latestRunOf none) "ws1") ∧
    (TerraformLatestRun ⟨"gl", "ws1", true⟩
        ⟨none, none, false, 3⟩).headerTitle = none ∧
    (TerraformLatestRun ⟨"gl", "ws1", true⟩
        ⟨none, none, false, 3⟩).hasRefreshControl = false ∧
    (TerraformLatestRun ⟨"gl", "ws1", true⟩
        ⟨none, none, false, 3⟩).description = none :=
  hide_description_renders_card_only ⟨"gl", "ws1", true⟩
    ⟨none, none, false, 3⟩ rfl rfl

/-- C7: for every `FetchState` with `error` absent and `hideDescription`
false, the rendered output of `TerraformLatestRun` contains a header block
with the fixed title "Terraform", a refresh control bound to the injected
`refetch` callback, the fixed descriptive sentence interpolated with the
workspace name, and the run-summary card, irrespective of the values of
`data` and `isLoading`. -/
theorem non_error_full_layout (org w : String) (st : FetchState)
    (herr : st.error = none) :
    TerraformLatestRun ⟨org, w, false⟩ st =
      .full
        { title := "Terraform", refreshAriaLabel := "Refresh",
          refreshOnClick := st.refetchId }
        (descriptionText w)
        (TerraformLatestRunCard st.isLoading (latestRunOf st.data) w) ∧
    (TerraformLatestRun ⟨org, w, false⟩ st).headerTitle = some "Terraform" ∧
    (TerraformLatestRun ⟨org, w, false⟩ st).hasRefreshControl = true ∧
    (TerraformLatestRun ⟨org, w, false⟩ st).description =
      some (descriptionText w) ∧
    (TerraformLatestRun ⟨org, w, false⟩ st).cardOf =
      some (TerraformLatestRunCard st.isLoading (latestRunOf st.data) w) := by
  simp [TerraformLatestRun, herr, View.headerTitle, View.hasRefreshControl,
    View.description, View.cardOf]

/-- Witness for C7 at a concrete non-error loading state with absent
data. -/
theorem non_error_full_layout_witness :
    TerraformLatestRun ⟨"gl", "ws2", false⟩ ⟨none, none, true, 5⟩ =
      .full
        { title := "Terraform", refreshAriaLabel := "Refresh",
          refreshOnClick := 5 }
        (descriptionText "ws2")
        (TerraformLatestRunCard true (latestRunOf none) "ws2") ∧
    (TerraformLatestRun ⟨"gl", "ws2", false⟩
        ⟨none, none, true, 5⟩).headerTitle = some "Terraform" ∧
    (TerraformLatestRun ⟨"gl", "ws2", false⟩
        ⟨none, none, true, 5⟩).hasRefreshControl = true ∧
    (TerraformLatestRun ⟨"gl", "ws2", false⟩
        ⟨none, none, true, 5⟩).description = some (descriptionText "ws2") ∧
    (TerraformLatestRun ⟨"gl", "ws2", false⟩
        ⟨none, none, true, 5⟩).cardOf =
      some (TerraformLatestRunCard true (latestRunOf none) "ws2") :=
  non_error_full_layout "gl" "ws2" ⟨none, none, true, 5⟩ rfl

/-- C9: for every `FetchState` and every prop combination, rendering
`TerraformLatestRun` never raises an exception: under the instrumented
JavaScript exception semantics the render always returns `.ok` of the pure
render result, so failure is only ever represented as data in
`FetchState.error`. -/
theorem render_never_throws (p : Props) (st : FetchState) :
    TerraformLatestRunChecked p st = .ok (TerraformLatestRun p st) := by
  cases herr : st.error with
  | some e => simp [TerraformLatestRunChecked, TerraformLatestRun, herr]
  | none =>
      cases hd : st.data with
      | none =>
          simp only [TerraformLatestRunChecked, TerraformLatestRun, herr, hd,
            latestRunExpr, latestRunOf]
          split <;> rfl
      | some l =>
          simp only [TerraformLatestRunChecked, TerraformLatestRun, herr, hd,
            latestRunExpr, jsIndexZero, latestRunOf]
          split <;> rfl

/-- Witness for C9 at a concrete erroring, loading state with absent
data. -/
theorem render_never_throws_witness :
    TerraformLatestRunChecked ⟨"gl", "ws1", true⟩
        ⟨none, some ⟨"boom"⟩, true, 2⟩ =
      .ok (TerraformLatestRun ⟨"gl", "ws1", true⟩
        ⟨none, some ⟨"boom"⟩, true, 2⟩) :=
  render_never_throws ⟨"gl", "ws1", true⟩ ⟨none, some ⟨"boom"⟩, true, 2⟩

/-- C2 counterexample: at the concrete empty-data, non-loading, non-error
state with `hideDescription` off, the claim fails: the output does show
"No runs for {workspaceName}", but the description sentence and the
refresh control are present, not omitted (the non-error,
non-`hideDescription` path always renders the header block). -/
theorem empty_data_omission_counterexample :
    ¬ (("No runs for ws1" ∈
          (TerraformLatestRun ⟨"gl", "ws1", false⟩
            ⟨some [], none, false, 0⟩).texts) ∧
        (TerraformLatestRun ⟨"gl", "ws1", false⟩
          ⟨some [], none, false, 0⟩).description = none ∧
        (TerraformLatestRun ⟨"gl", "ws1", false⟩
          ⟨some [], none, false, 0⟩).hasRefreshControl = false) := by
  intro h
  simpa [TerraformLatestRun, View.hasRefreshControl] using h.2.2

/-- C2 amended: for every `FetchState` where `data` is the empty list or
absent, `isLoading` is false, and `error` is absent, and with
`hideDescription` not enabled, the rendered output of `TerraformLatestRun`
shows the text "No runs for {workspaceName}" and includes both the
description sentence and the "Refresh" control. -/
theorem empty_data_shows_no_runs_with_header (org w : String)
    (st : FetchState) (hdata : st.data = none ∨ st.data = some [])
    (hload : st.isLoading = false) (herr : st.error = none) :
    ("No runs for " ++ w) ∈ (TerraformLatestRun ⟨org, w, false⟩ st).texts ∧
    (TerraformLatestRun ⟨org, w, false⟩ st).description =
      some (descriptionText w) ∧
    (TerraformLatestRun ⟨org, w, false⟩ st).hasRefreshControl = true := by
  rcases hdata with hdata | hdata <;>
    simp [TerraformLatestRun, herr, hdata, hload, latestRunOf,
      TerraformLatestRunCard, View.texts, CardView.texts, View.description,
      View.hasRefreshControl]

/-- Witness for the amended C2 at a concrete empty-data state. -/
theorem empty_data_shows_no_runs_with_header_witness :
    ("No runs for " ++ "ws1") ∈
      (TerraformLatestRun ⟨"gl", "ws1", false⟩
        ⟨some [], none, false, 0⟩).texts ∧
    (TerraformLatestRun ⟨"gl", "ws1", false⟩
      ⟨some [], none, false, 0⟩).description =
        some (descriptionText "ws1") ∧
    (TerraformLatestRun ⟨"gl", "ws1", false⟩
      ⟨some [], none, false, 0⟩).hasRefreshControl = true :=
  empty_data_shows_no_runs_with_header "gl" "ws1" ⟨some [], none, false, 0⟩
    (Or.inr rfl) rfl rfl

/-- C3: on every render with `error` absent, the run-summary card receives
exactly `data?.[0]` — the first element when `data` is a non-empty list,
no run when `data` is absent — together with the workspace name; the view
never reorders `data`, and the populated card state arises exactly when
not loading and `data` is non-empty, in which case the displayed run is
the first element of `data`. -/
theorem card_receives_first_element (p : Props) (st : FetchState)
    (herr : st.error = none) :
    (TerraformLatestRun p st).cardOf =
      some (TerraformLatestRunCard st.isLoading (latestRunOf st.data)
        p.workspaceName) ∧
    (∀ r l, st.data = some (r :: l) → latestRunOf st.data = some r) ∧
    (st.data = none → latestRunOf st.data = none) ∧
    (∀ r u, (TerraformLatestRun p st).cardOf =
        some (.latestRun p.workspaceName r u) →
      st.isLoading = false ∧ ∃ l, st.data = some (r :: l)) := by
  refine ⟨?_, ?_, ?_, ?_⟩
  · by_cases hh : p.hideDescription <;>
      simp [TerraformLatestRun, herr, hh, View.cardOf]
  · intro r l hd; simp [latestRunOf, hd]
  · intro hd; simp [latestRunOf, hd]
  · intro r u hcard
    have hcard' :
        TerraformLatestRunCard st.isLoading (latestRunOf st.data)
            p.workspaceName = .latestRun p.workspaceName r u := by
      by_cases hh : p.hideDescription <;>
        simpa [TerraformLatestRun, herr, hh, View.cardOf] using hcard
    cases hload : st.isLoading with
    | true => simp [TerraformLatestRunCard, hload] at hcard'
    | false =>
        refine ⟨rfl, ?_⟩
        cases hd : st.data with
        | none => simp [TerraformLatestRunCard, hload, latestRunOf, hd] at hcard'
        | some l =>
            cases l with
            | nil =>
                simp [TerraformLatestRunCard, hload, latestRunOf, hd] at hcard'
            | cons r0 rest =>
                simp only [TerraformLatestRunCard, hload, latestRunOf, hd,
                  Bool.false_eq_true, if_false, List.head?] at hcard'
                cases hcard'
                exact ⟨rest, rfl⟩

/-- Witness for C3 at a concrete two-element data state. -/
theorem card_receives_first_element_witness :
    (TerraformLatestRun ⟨"gl", "ws1", false⟩
        ⟨some [{ id := "a", message := "m1", status := "s1",
                 createdAt := "t1", confirmedBy := none, plan := none },
               { id := "b", message := "m2", status := "s2",
                 createdAt := "t2", confirmedBy := none, plan := none }],
          none, false, 0⟩).cardOf =
      some (TerraformLatestRunCard false
        (latestRunOf (some
          [{ id := "a", message := "m1", status := "s1", createdAt := "t1",
             confirmedBy := none, plan := none },
           { id := "b", message := "m2", status := "s2", createdAt := "t2",
             confirmedBy := none, plan := none }])) "ws1") ∧
    (∀ r l,
      (some [{ id := "a", message := "m1", status := "s1", createdAt := "t1",
               confirmedBy := none, plan := none },
             { id := "b", message := "m2", status := "s2", createdAt := "t2",
               confirmedBy := none, plan := none }] :
          Option (List Run)) = some (r :: l) →
      latestRunOf (some
        [{ id := "a", message := "m1", status := "s1", createdAt := "t1",
           confirmedBy := none, plan := none },
         { id := "b", message := "m2", status := "s2", createdAt := "t2",
           confirmedBy := none, plan := none }]) = some r) ∧
    ((some [{ id := "a", message := "m1", status := "s1", createdAt := "t1",
              confirmedBy := none, plan := none },
            { id := "b", message := "m2", status := "s2", createdAt := "t2",
              confirmedBy := none, plan := none }] :
        Option (List Run)) = none →
      latestRunOf (some
        [{ id := "a", message := "m1", status := "s1", createdAt := "t1",
           confirmedBy := none, plan := none },
         { id := "b", message := "m2", status := "s2", createdAt := "t2",
           confirmedBy := none, plan := none }]) = none) ∧
    (∀ r u,
      (TerraformLatestRun ⟨"gl", "ws1", false⟩
          ⟨some [{ id := "a", message := "m1", status := "s1",
                   createdAt := "t1", confirmedBy := none, plan := none },
                 { id := "b", message := "m2", status := "s2",
                   createdAt := "t2", confirmedBy := none, plan := none }],
            none, false, 0⟩).cardOf =
        some (.latestRun "ws1" r u) →
      (false : Bool) = false ∧
      ∃ l,
        (some [{ id := "a", message := "m1", status := "s1",
                 createdAt := "t1", confirmedBy := none, plan := none },
               { id := "b", message := "m2", status := "s2",
                 createdAt := "t2", confirmedBy := none, plan := none }] :
            Option (List Run)) = some (r :: l)) :=
  card_receives_first_element ⟨"gl", "ws1", false⟩
    ⟨some [{ id := "a", message := "m1", status := "s1", createdAt := "t1",
             confirmedBy := none, plan := none },
           { id := "b", message := "m2", status := "s2", createdAt := "t2",
             confirmedBy := none, plan := none }],
      none, false, 0⟩ rfl

/-- C8: for every `FetchState` with `data = [run]` where the confirming
user or its name is absent, `error` absent and not loading, the rendered
output shows "Latest run for {workspaceName}", a "User" label, and the
literal "Unknown" as the confirming user's name, for any props. -/
theorem single_run_unknown_user (p : Props) (run : Run) (rid : Nat)
    (hname : run.confirmedBy.bind ConfirmedBy.name = none) :
    ("Latest run for " ++ p.workspaceName) ∈
      (TerraformLatestRun p ⟨some [run], none, false, rid⟩).texts ∧
    "User" ∈ (TerraformLatestRun p ⟨some [run], none, false, rid⟩).texts ∧
    "Unknown" ∈
      (TerraformLatestRun p ⟨some [run], none, false, rid⟩).texts := by
  by_cases hh : p.hideDescription <;>
    simp [TerraformLatestRun, hh, latestRunOf, TerraformLatestRunCard,
      hname, View.texts, CardView.texts]

/-- Witness for C8 at the test suite's run record with `confirmedBy`
undefined. -/
theorem single_run_unknown_user_witness :
    ("Latest run for " ++ "ws1") ∈
      (TerraformLatestRun ⟨"gl", "ws1", false⟩
        ⟨some [{ id := "123", message := "this is a text message",
                 status := "done", createdAt := "2023-05-24T10:23:40.172Z",
                 confirmedBy := none,
                 plan := some { logs := "some text" } }],
          none, false, 0⟩).texts ∧
    "User" ∈
      (TerraformLatestRun ⟨"gl", "ws1", false⟩
        ⟨some [{ id := "123", message := "this is a text message",
                 status := "done", createdAt := "2023-05-24T10:23:40.172Z",
                 confirmedBy := none,
                 plan := some { logs := "some text" } }],
          none, false, 0⟩).texts ∧
    "Unknown" ∈
      (TerraformLatestRun ⟨"gl", "ws1", false⟩
        ⟨some [{ id := "123", message := "this is a text message",
                 status := "done", createdAt := "2023-05-24T10:23:40.172Z",
                 confirmedBy := none,
                 plan := some { logs := "some text" } }],
          none, false, 0⟩).texts :=
  single_run_unknown_user ⟨"gl", "ws1", false⟩
    { id := "123", message := "this is a text message", status := "done",
      createdAt := "2023-05-24T10:23:40.172Z", confirmedBy := none,
      plan := some { logs := "some text" } } 0 rfl

/-- Over a sequence of later renders, the effect registered by the
component runs exactly at the renders whose `refetch` identity differs
from the previous render's, each run contributing exactly one `refetch`
invocation. -/
theorem runEffectsFrom_component_length (p : Props) (prev : Nat)
    (rest : List FetchState) :
    (runEffectsFrom [prev]
        (rest.map fun st => (TerraformLatestRunComponent p st).effect)).length
      = refIdChanges prev rest := by
  induction rest generalizing prev with
  | nil => rfl
  | cons st rest ih =>
      show ((if ([st.refetchId] : List Nat) = [prev] then
              ([] : List EffectAction)
            else [.callRefetch st.refetchId]) ++
          runEffectsFrom [st.refetchId]
            (rest.map fun s => (TerraformLatestRunComponent p s).effect)).length
        = (if st.refetchId = prev then 0 else 1) +
            refIdChanges st.refetchId rest
      rw [List.length_append, ih]
      by_cases h : st.refetchId = prev <;> simp [h]

/-- C4: over any committed render sequence, the component's
`useEffect(() => { refetch(); }, [refetch])` invokes `refetch` exactly
once on mount and exactly once per change of the injected `refetch`
reference (and only then); the effect body is the single un-awaited
`refetch()` call, and the returned view is the pure render, consuming
nothing of the invocation's result. -/
theorem mount_and_deps_change_invoke_refetch (p : Props) (st : FetchState)
    (rest : List FetchState) :
    (effectTrace p (st :: rest)).length =
      1 + refIdChanges st.refetchId rest ∧
    (TerraformLatestRunComponent p st).effect.body =
      [.callRefetch st.refetchId] ∧
    (TerraformLatestRunComponent p st).view = TerraformLatestRun p st := by
  refine ⟨?_, rfl, rfl⟩
  have hstep : effectTrace p (st :: rest) =
      [EffectAction.callRefetch st.refetchId] ++
        runEffectsFrom [st.refetchId]
          (rest.map fun s => (TerraformLatestRunComponent p s).effect) := rfl
  rw [hstep, List.length_append, runEffectsFrom_component_length]
  rfl

/-- Witness for C4 at a concrete three-render sequence whose `refetch`
reference changes once: two invocations in total. -/
theorem mount_and_deps_change_invoke_refetch_witness :
    (effectTrace ⟨"gl", "ws1", false⟩
        [⟨none, none, true, 4⟩, ⟨none, none, false, 4⟩,
         ⟨some [], none, false, 9⟩]).length =
      1 + refIdChanges 4
            [⟨none, none, false, 4⟩, ⟨some [], none, false, 9⟩] ∧
    (TerraformLatestRunComponent ⟨"gl", "ws1", false⟩
        ⟨none, none, true, 4⟩).effect.body = [.callRefetch 4] ∧
    (TerraformLatestRunComponent ⟨"gl", "ws1", false⟩
        ⟨none, none, true, 4⟩).view =
      TerraformLatestRun ⟨"gl", "ws1", false⟩ ⟨none, none, true, 4⟩ :=
  mount_and_deps_change_invoke_refetch ⟨"gl", "ws1", false⟩
    ⟨none, none, true, 4⟩
    [⟨none, none, false, 4⟩, ⟨some [], none, false, 9⟩]

/-- C5: for every `n`, `n` activations of the refresh control on a
non-error, non-`hideDescription` render produce exactly `n` invocations of
the injected `refetch` callback, with no coalescing: the action trace is
exactly `n` copies of a single `refetch` call. -/
theorem refresh_activations_invoke_refetch (org w : String)
    (st : FetchState) (n : Nat) (herr : st.error = none) :
    activateRefreshN (TerraformLatestRun ⟨org, w, false⟩ st) n =
      List.replicate n (.callRefetch st.refetchId) ∧
    (activateRefreshN (TerraformLatestRun ⟨org, w, false⟩ st) n).length
      = n := by
  have hview : TerraformLatestRun ⟨org, w, false⟩ st =
      .full
        { title := "Terraform", refreshAriaLabel := "Refresh",
          refreshOnClick := st.refetchId }
        (descriptionText w)
        (TerraformLatestRunCard st.isLoading (latestRunOf st.data) w) := by
    simp [TerraformLatestRun, herr]
  have htrace : ∀ m,
      activateRefreshN
        (View.full
          { title := "Terraform", refreshAriaLabel := "Refresh",
            refreshOnClick := st.refetchId }
          (descriptionText w)
          (TerraformLatestRunCard st.isLoading (latestRunOf st.data) w)) m =
        List.replicate m (.callRefetch st.refetchId) := by
    intro m
    induction m with
    | zero => rfl
    | succ k ih =>
        simp [activateRefreshN, activateRefresh, ih, List.replicate_succ]
  rw [hview]
  exact ⟨htrace n, by simp [htrace n]⟩

/-- Witness for C5: two rapid activations on a concrete populated render
invoke `refetch` exactly twice. -/
theorem refresh_activations_invoke_refetch_witness :
    activateRefreshN (TerraformLatestRun ⟨"gl", "ws1", false⟩
        ⟨none, none, false, 7⟩) 2 =
      List.replicate 2 (.callRefetch 7) ∧
    (activateRefreshN (TerraformLatestRun ⟨"gl", "ws1", false⟩
        ⟨none, none, false, 7⟩) 2).length = 2 :=
  refresh_activations_invoke_refetch "gl" "ws1" ⟨none, none, false, 7⟩ 2 rfl

/-- C10: the mount-time `refetch()` invocation occurs regardless of which
view state is rendered: when `error` is set and only the error panel is
displayed, the component still invokes `refetch` once on mount and once
per change of the `refetch` reference over later renders. -/
theorem error_state_still_invokes_refetch (p : Props) (st : FetchState)
    (e : JsError) (rest : List FetchState) (h : st.error = some e) :
    (TerraformLatestRunComponent p st).view = .errorPanel e ∧
    (effectTrace p (st :: rest)).length =
      1 + refIdChanges st.refetchId rest := by
  constructor
  · simp [TerraformLatestRunComponent, TerraformLatestRun, h]
  · have hstep : effectTrace p (st :: rest) =
        [EffectAction.callRefetch st.refetchId] ++
          runEffectsFrom [st.refetchId]
            (rest.map fun s => (TerraformLatestRunComponent p s).effect) :=
      rfl
    rw [hstep, List.length_append, runEffectsFrom_component_length]
    rfl

/-- Witness for C10 at a concrete erroring state followed by one render
with a changed `refetch` reference. -/
theorem error_state_still_invokes_refetch_witness :
    (TerraformLatestRunComponent ⟨"gl", "ws1", false⟩
        ⟨none, some ⟨"boom"⟩, false, 1⟩).view = .errorPanel ⟨"boom"⟩ ∧
    (effectTrace ⟨"gl", "ws1", false⟩
        [⟨none, some ⟨"boom"⟩, false, 1⟩,
         ⟨none, some ⟨"boom"⟩, false, 2⟩]).length =
      1 + refIdChanges 1 [⟨none, some ⟨"boom"⟩, false, 2⟩] :=
  error_state_still_invokes_refetch ⟨"gl", "ws1", false⟩
    ⟨none, some ⟨"boom"⟩, false, 1⟩ ⟨"boom"⟩
    [⟨none, some ⟨"boom"⟩, false, 2⟩] rfl

end Terraform
